import Mathlib

/-!
# Verified model of the task-orchestration / AI-draft generation subsystem

Shallow embedding, in Lean 4, of the draft-generation workflow of the
`Transforming-PDF-Tables-into-Natural-Language-Backend` repository:

* `app/services/draft_service.py`  — prompt construction, cost accounting,
  the mock fallback used when no API key is configured;
* `app/workers/tasks_draft.py`     — the Celery worker `generate_ai_draft`
  and its async body `_generate_draft_async`, failure bookkeeping
  (`_update_task_failed`) and the bounded-retry wrapper;
* `app/api/v1/routes_tasks.py`     — the manual retry endpoint
  `retry_draft_generation`;
* `app/api/v1/routes_drafts.py`    — the manual generation endpoint
  `generate_draft`;
* `app/workers/tasks_parse.py`     — task creation after PDF parsing;
* `app/db/models/tasks.py`         — the Task / AIDraft / HumanEdit / QACheck
  data model.

Modelling conventions:

* The persistent store is a value of type `DB` (association list of tasks,
  list of draft rows); each `await db.commit()` in the source corresponds to
  producing the next `DB` value.  SQLAlchemy relationship loads
  (`task.ai_draft`, `task.parsed_table`) are modelled as lookups in that
  store.  (The worker module references `selectinload` without importing it;
  as in the sibling route modules the name is read as
  `sqlalchemy.orm.selectinload`, and the eager-load options have no
  observable effect in this embedding.)
* The external LLM call is a parameter `provider : String → Except String
  ProviderResp`; the cryptographic hash `hashlib.sha256(...).hexdigest()` is
  a parameter `sha256hex : String → String` (the claims depend only on its
  determinism); wall-clock generation time is a parameter `gen_time_ms`.
* Python floats (`temperature`, token rates, `confidence`) are modelled as
  exact rationals; `round(x, 6)` is modelled as round-half-to-even at six
  decimal places, matching Python semantics on decimal values; the `:.2f`
  float rendering is modelled by `format2f` (round-half-to-even at two
  decimals).
* Python exceptions are modelled with `Except String`.
-/

namespace Backend

/-! ## Enumerations (`app/db/models/tasks.py`)

The `TaskStatus` member `READY_FOR_ANNOTATION` is shortened to
`ready_for_annot` in this file. -/

inductive TaskStatus where
  | awaiting_draft
  | ready_for_annot
  | in_progress
  | completed
  | qa_pending
  | qa_done
  | reassigned
  | draft_failed
deriving DecidableEq, Repr

inductive DraftStatus where
  | queued
  | generating
  | succeeded
  | failed
deriving DecidableEq, Repr

inductive QAResult where
  | pass
  | fail
deriving DecidableEq, Repr

/-! ## Rounding helpers for Python float formatting -/

/-- Round-half-to-even of a rational to an integer (Python `round(x)` /
IEEE default rounding on decimal values). -/
def rhe (x : ℚ) : ℤ :=
  let f : ℤ := ⌊x⌋
  let r : ℚ := x - f
  if r < 1/2 then f
  else if 1/2 < r then f + 1
  else if f % 2 = 0 then f else f + 1

/-- Python `round(x, 6)` on exact decimal data. -/
def pyRound6 (x : ℚ) : ℚ := (rhe (x * 1000000) : ℚ) / 1000000

/-- Python `f"{x:.2f}"` on exact decimal data (two fixed decimals,
round-half-to-even). -/
def format2f (x : ℚ) : String :=
  let n : ℤ := rhe (x * 100)
  let sign := if n < 0 then "-" else ""
  let m := n.natAbs
  sign ++ toString (m / 100) ++ "." ++ (if m % 100 < 10 then "0" else "") ++ toString (m % 100)

/-! ## Table schema (the `schema_json` consumed by `create_prompt`) -/

/-- One cell of `schema_json["cells"]`. -/
structure Cell where
  row : Nat
  col : Nat
  text : String
  is_header : Bool
deriving DecidableEq, Repr

/-- `schema_json["meta"]`. -/
structure TableMeta where
  detector : String
  confidence : ℚ
deriving DecidableEq, Repr

/-- The unified table schema JSON (`table.schema_json`), with the keys
`create_prompt` reads.  The `.get(..., default)` fallbacks of the source are
for absent JSON keys; the embedding keeps the fields present. -/
structure TableSchema where
  meta : TableMeta
  cells : List Cell
  n_rows : Nat
  n_cols : Nat
  page : Nat
deriving DecidableEq, Repr

/-- Stable insertion of a cell into a col-sorted list, after all cells with
`col ≤ c.col` (so that sorting is stable, like Python `sorted`). -/
def insertByCol (c : Cell) : List Cell → List Cell
  | [] => [c]
  | d :: ds => if d.col ≤ c.col then d :: insertByCol c ds else c :: d :: ds

/-- Stable sort of cells by `col` — `sorted(cells, key=lambda x: x.get("col", 0))`. -/
def sortByCol (l : List Cell) : List Cell := l.foldl (fun acc c => insertByCol c acc) []

/-- Insertion of a number into an ascending list (duplicates kept after). -/
def insertLe (x : Nat) : List Nat → List Nat
  | [] => [x]
  | y :: ys => if y ≤ x then y :: insertLe x ys else x :: y :: ys

/-- Ascending sort — `sorted(rows_by_number.keys())`. -/
def sortNats (l : List Nat) : List Nat := l.foldl (fun acc x => insertLe x acc) []

/-- The distinct row numbers of the cells in first-appearance order — the
keys of the Python dict `rows_by_number` built by insertion. -/
def rowNumbers (cells : List Cell) : List Nat :=
  cells.foldl (fun ks c => if c.row ∈ ks then ks else ks ++ [c.row]) []

/-- The cells of one row, in list order — `rows_by_number[r]`. -/
def cellsOfRow (cells : List Cell) (r : Nat) : List Cell :=
  cells.filter (fun c => c.row == r)

/-- `DraftService.create_prompt` (`app/services/draft_service.py` lines
33-129): deterministic serialization of the table schema into the
instruction template.  (The source also computes `header_cells` and
`data_cells`, which it never uses; they are omitted.) -/
def create_prompt (table_schema : TableSchema) : String :=
  let meta := table_schema.meta
  let cells := table_schema.cells
  let n_rows := table_schema.n_rows
  let n_cols := table_schema.n_cols
  let header_row := cellsOfRow cells 0
  let header_texts := (sortByCol header_row).map (fun c => c.text.trim)
  let sample_rows :=
    (((sortNats (rowNumbers cells)).drop 1).take 3).map
      (fun r => (sortByCol (cellsOfRow cells r)).map (fun c => c.text.trim))
  let p1 :=
    "Convert the following table schema to a faithful, concise natural language description for compliance guidelines.

INSTRUCTIONS:
- Analyze the table structure and content carefully
- Generate a clear description that preserves exact numbers, units, and ranges
- Identify key rules, patterns, and exceptions
- Do NOT fabricate or assume information not present in the data
- Structure your response in the specified sections below

TABLE INFORMATION:
- Dimensions: " ++ toString n_rows ++ " rows × " ++ toString n_cols ++ " columns
- Detection method: " ++ meta.detector ++ "
- Confidence: " ++ format2f meta.confidence ++ "
- Page number: " ++ toString table_schema.page ++ "

HEADER ROW:
" ++ (if header_texts.isEmpty then "No clear headers identified"
      else String.intercalate " | " header_texts) ++ "

SAMPLE DATA ROWS:
"
  let p2 := p1 ++ String.join
    ((sample_rows.enumFrom 1).map
      (fun ri => "Row " ++ toString ri.1 ++ ": " ++ String.intercalate " | " ri.2 ++ "\n"))
  let p3 := p2 ++ (if sample_rows.isEmpty then "No data rows available\n" else "")
  p3 ++ "
RESPONSE FORMAT:
Structure your response with these sections:

**Purpose**
[Brief description of what this table contains and its purpose]

**Structure**
[Description of the table organization, columns, and data types]

**Key Rules**
[Main rules, requirements, or patterns identified in the data]

**Exceptions**
[Any exceptions, special cases, or variations noted]

**Data Quality Notes**
[Any observations about data completeness, consistency, or quality issues]

Generate the description now:"

/-! ## Cost accounting (`DraftService.__init__` / `_calculate_cost`) -/

/-- The per-1K-token rate table `self.token_costs` (input rate, output rate). -/
def token_costs : List (String × (ℚ × ℚ)) :=
  [("gpt-4o-mini", (0.00015, 0.0006)),
   ("gpt-4o", (0.005, 0.015)),
   ("gpt-3.5-turbo", (0.0005, 0.0015))]

/-- `DraftService._calculate_cost`: per-model rates with silent default
`{"input": 0.001, "output": 0.002}`, cost rounded to six decimals. -/
def calculate_cost (model : String) (input_tokens output_tokens : Nat) : ℚ :=
  let costs := (token_costs.lookup model).getD (0.001, 0.002)
  let input_cost := ((input_tokens : ℚ) / 1000) * costs.1
  let output_cost := ((output_tokens : ℚ) / 1000) * costs.2
  pyRound6 (input_cost + output_cost)

/-- Spec-side restatement of the claimed cost formula (claim C10): the rate
pair for each of the three tabulated model names, with every other model
name falling back to the default rates `(0.001, 0.002)` per 1000 tokens. -/
def claimRates (model : String) : ℚ × ℚ :=
  if model = "gpt-4o-mini" then (0.00015, 0.0006)
  else if model = "gpt-4o" then (0.005, 0.015)
  else if model = "gpt-3.5-turbo" then (0.0005, 0.0015)
  else (0.001, 0.002)

/-- Spec-side restatement of the claimed derived cost (claim C10):
`round(i/1000 * rate_in + o/1000 * rate_out, 6)`. -/
def claimCost (model : String) (i o : Nat) : ℚ :=
  pyRound6 ((i : ℚ) / 1000 * (claimRates model).1 + (o : ℚ) / 1000 * (claimRates model).2)

/-! ## Persistent store (`app/db/models/tasks.py`) -/

/-- The `trace_json` payload of a draft row. -/
inductive Trace where
  | real (prompt_tokens completion_tokens total_tokens : Nat) (model : String)
      (temperature : ℚ) (prompt_preview : String)
  | mock
deriving DecidableEq, Repr

/-- The `usage` JSONB of a draft row: either the counted shape written by the
fresh-generation path, or the `{"reused": True, "original_draft_id": ...}`
shape written by the cross-task reuse path. -/
inductive Usage where
  | counted (input_tokens output_tokens total_tokens : Nat) (cost_usd : ℚ)
  | reused (original_draft_id : Nat)
deriving DecidableEq, Repr

/-- A row of the `tasks` table (the columns the workflow touches). -/
structure TaskRec where
  status : TaskStatus
  draft_status : DraftStatus
  priority : Nat
  allocation_hold : Bool
  retry_count : Nat
  last_error : Option String
  /-- The related `parsed_tables` row, reduced to its `schema_json`. -/
  parsed_table : Option TableSchema
deriving DecidableEq, Repr

/-- A row of the `ai_drafts` table. -/
structure AIDraft where
  id : Nat
  task_id : Nat
  model_name : String
  prompt_version : String
  prompt_hash : String
  draft_text : String
  trace_json : Option Trace
  usage : Usage
  generation_time_ms : Nat
  temperature : ℚ
deriving DecidableEq, Repr

/-- The shared store: tasks keyed by id, draft rows, and the id counter used
for fresh draft rows. -/
structure DB where
  tasks : List (Nat × TaskRec)
  drafts : List AIDraft
  next_draft_id : Nat
deriving DecidableEq, Repr

def DB.empty : DB := ⟨[], [], 0⟩

/-- `SELECT ... WHERE Task.id == task_id`. -/
def DB.getTask (db : DB) (tid : Nat) : Option TaskRec := db.tasks.lookup tid

/-- Committing a mutation of one task row. -/
def DB.setTask (db : DB) (tid : Nat) (t : TaskRec) : DB :=
  { db with tasks := db.tasks.map (fun p => if p.1 = tid then (tid, t) else p) }

/-- The `task.ai_draft` one-to-one relationship load. -/
def DB.draftForTask (db : DB) (tid : Nat) : Option AIDraft :=
  db.drafts.find? (fun d => d.task_id == tid)

/-- `SELECT AIDraft WHERE AIDraft.prompt_hash == prompt_hash` (first match,
across all tasks). -/
def DB.draftWithHash (db : DB) (h : String) : Option AIDraft :=
  db.drafts.find? (fun d => d.prompt_hash == h)

/-- `db.add(draft)` + commit: insert a fresh draft row, returning its id. -/
def DB.addDraft (db : DB) (mk : Nat → AIDraft) : DB × Nat :=
  ({ db with drafts := db.drafts ++ [mk db.next_draft_id],
             next_draft_id := db.next_draft_id + 1 }, db.next_draft_id)

/-! ## Draft service (`app/services/draft_service.py`) -/

/-- The provider response (`response.choices[0].message.content` and
`response.usage`). -/
structure ProviderResp where
  text : String
  prompt_tokens : Nat
  completion_tokens : Nat
  total_tokens : Nat
deriving DecidableEq, Repr

/-- The dict returned by `DraftService.generate_draft` /
`DraftService._generate_mock_draft`. -/
structure DraftResult where
  text : String
  model : String
  prompt_version : String
  temperature : ℚ
  usage_input : Nat
  usage_output : Nat
  usage_total : Nat
  usage_cost : ℚ
  trace : Trace
deriving DecidableEq, Repr

/-- `prompt[:200] + "..." if len(prompt) > 200 else prompt`. -/
def promptPreview (prompt : String) : String :=
  if 200 < prompt.length then prompt.take 200 ++ "..." else prompt

/-- The mock draft text of `DraftService._generate_mock_draft`. -/
def mock_text (ts : TableSchema) : String :=
  "**Purpose**
This table contains structured data extracted from a document using " ++ ts.meta.detector ++ " detection method.

**Structure**
The table has " ++ toString ts.n_rows ++ " rows and " ++ toString ts.n_cols ++ " columns. Data appears to be organized in a tabular format with headers and data rows.

**Key Rules**
- Table structure follows standard row/column format
- Data extraction confidence varies by detection method
- Column headers provide context for data interpretation

**Exceptions**
- Some cells may contain merged content spanning multiple rows or columns
- Data quality depends on source document clarity and extraction method

**Data Quality Notes**
This is a mock draft generated for development purposes. In production, this would contain detailed analysis of the actual table content and structure based on the extracted schema."

/-- `DraftService._generate_mock_draft` (lines 240-285): the development
fallback used when no API key is configured.  Token counts are estimated as
`len(...) // 4`, the cost is the fixed mock value `0.001`, and the trace is
marked as mock. -/
def generate_mock_draft (ts : TableSchema) (model : String) : DraftResult :=
  let text := mock_text ts
  let estimated_input_tokens := (create_prompt ts).length / 4
  let estimated_output_tokens := text.length / 4
  { text := text
    model := model
    prompt_version := "v1.0"
    temperature := 0.7
    usage_input := estimated_input_tokens
    usage_output := estimated_output_tokens
    usage_total := estimated_input_tokens + estimated_output_tokens
    usage_cost := 0.001
    trace := Trace.mock }

/-- `DraftService.generate_draft` (lines 131-229).  `api_key` models
`settings.OPENAI_API_KEY` (the service has `self.client = AsyncOpenAI(...)
if settings.OPENAI_API_KEY else None`); `provider` models the network call.
Returns the result (or the wrapped error) together with the number of
provider invocations performed (0 or 1). -/
def DraftService.generate_draft (api_key : Option String)
    (provider : String → Except String ProviderResp)
    (table_schema : TableSchema) (model : String) (temperature : ℚ) :
    Except String DraftResult × Nat :=
  match api_key with
  | none => (Except.ok (generate_mock_draft table_schema model), 0)
  | some _ =>
    let prompt := create_prompt table_schema
    match provider prompt with
    | Except.error e => (Except.error ("Failed to generate AI draft: " ++ e), 1)
    | Except.ok r =>
      let cost_usd := calculate_cost model r.prompt_tokens r.completion_tokens
      (Except.ok
        { text := r.text
          model := model
          prompt_version := "v1.0"
          temperature := temperature
          usage_input := r.prompt_tokens
          usage_output := r.completion_tokens
          usage_total := r.total_tokens
          usage_cost := cost_usd
          trace := Trace.real r.prompt_tokens r.completion_tokens r.total_tokens model
            temperature (promptPreview prompt) }, 1)

/-! ## Generation worker (`app/workers/tasks_draft.py`) -/

/-- The environment of one worker invocation: the abstract hash function, the
external provider, the configured credentials and model, and the measured
wall-clock duration of the provider call. -/
structure WorkerEnv where
  sha256hex : String → String
  provider : String → Except String ProviderResp
  api_key : Option String
  default_model : String
  gen_time_ms : Nat

/-- The dict returned by `_generate_draft_async` on each of its three exits. -/
inductive RunResult where
  | skipped (draft_id : Nat)
  | reusedDraft (draft_id original_draft_id : Nat) (prompt_hash : String)
  | generated (draft_id : Nat) (generation_time_ms : Nat) (prompt_hash : String)
deriving DecidableEq, Repr

/-- `_generate_draft_async` (lines 102-248).  Returns the committed store,
the result or raised error, and the number of provider invocations.  Note
the source writes `task.draft_status = GENERATING` and commits
unconditionally (lines 119-121) before any further check — there is no
compare-and-swap against the stored value. -/
def generate_draft_async (env : WorkerEnv) (db : DB) (task_id : Nat)
    (force_regenerate : Bool) : DB × Except String RunResult × Nat :=
  match db.getTask task_id with
  | none => (db, Except.error "Task not found", 0)
  | some task =>
    -- lines 119-121: unconditional write of GENERATING, committed
    let task1 := { task with draft_status := DraftStatus.generating }
    let db1 := db.setTask task_id task1
    -- lines 123-141: idempotency short-circuit on an existing own draft
    match db1.draftForTask task_id, force_regenerate with
    | some own, false =>
      let task2 := { task1 with
        status := TaskStatus.ready_for_annot
        draft_status := DraftStatus.succeeded
        allocation_hold := false }
      (db1.setTask task_id task2, Except.ok (RunResult.skipped own.id), 0)
    | _, _ =>
      match task.parsed_table with
      | none => (db1, Except.error "No parsed table found for task", 0)
      | some table =>
        -- lines 151-155: prompt hash over (model, serialized prompt)
        let prompt_content := create_prompt table
        let prompt_hash := env.sha256hex (env.default_model ++ ":" ++ prompt_content)
        -- lines 157-195: cross-task reuse by prompt hash
        let reuse := match db1.draftWithHash prompt_hash with
          | some existing => if force_regenerate then none else some existing
          | none => none
        match reuse with
        | some existing =>
          let (db2, new_id) := db1.addDraft (fun i =>
            { id := i
              task_id := task_id
              model_name := existing.model_name
              prompt_version := existing.prompt_version
              prompt_hash := prompt_hash
              draft_text := existing.draft_text
              trace_json := existing.trace_json
              usage := Usage.reused existing.id
              generation_time_ms := 0
              temperature := existing.temperature })
          let task2 := { task1 with
            status := TaskStatus.ready_for_annot
            draft_status := DraftStatus.succeeded
            allocation_hold := false }
          (db2.setTask task_id task2,
           Except.ok (RunResult.reusedDraft new_id existing.id prompt_hash), 0)
        | none =>
          -- lines 197-248: fresh generation
          match DraftService.generate_draft env.api_key env.provider table
              env.default_model 0.7 with
          | (Except.error e, n) => (db1, Except.error e, n)
          | (Except.ok r, n) =>
            let (db2, new_id) := db1.addDraft (fun i =>
              { id := i
                task_id := task_id
                model_name := r.model
                prompt_version := r.prompt_version
                prompt_hash := prompt_hash
                draft_text := r.text
                trace_json := some r.trace
                usage := Usage.counted r.usage_input r.usage_output r.usage_total
                  r.usage_cost
                generation_time_ms := env.gen_time_ms
                temperature := r.temperature })
            let task2 := { task1 with
              status := TaskStatus.ready_for_annot
              draft_status := DraftStatus.succeeded
              allocation_hold := false
              last_error := none }
            (db2.setTask task_id task2,
             Except.ok (RunResult.generated new_id env.gen_time_ms prompt_hash), n)

/-- `_update_task_failed` (lines 251-263): one UPDATE setting
`draft_status=FAILED`, storing the error text and incrementing
`retry_count`. -/
def update_task_failed (db : DB) (task_id : Nat) (error_message : String) : DB :=
  { db with tasks := db.tasks.map (fun p =>
      if p.1 = task_id then
        (p.1, { p.2 with
          draft_status := DraftStatus.failed
          last_error := some error_message
          retry_count := p.2.retry_count + 1 })
      else p) }

/-- `@celery_app.task(..., max_retries=3)` on `generate_ai_draft`. -/
def celery_max_retries : Nat := 3

/-- `settings.DRAFT_RETRY_BACKOFF_FACTOR` (config default 2.0). -/
def DRAFT_RETRY_BACKOFF_FACTOR : ℚ := 2.0

/-- Outcome of one Celery invocation of `generate_ai_draft`. -/
inductive AttemptOutcome where
  | ok (r : RunResult)
  | retryScheduled (countdown : ℚ) (err : String)
  | failedFinal (err : String)
deriving DecidableEq, Repr

/-- `generate_ai_draft` (lines 39-99): one Celery invocation.  `retries` is
`self.request.retries`, the number of times this job has already been
retried.  On any error the failure bookkeeping runs, then a re-dispatch with
countdown `DRAFT_RETRY_BACKOFF_FACTOR ** retries * 60` is requested while
`retries < max_retries`. -/
def generate_ai_draft (env : WorkerEnv) (retries : Nat) (db : DB)
    (task_id : Nat) (force_regenerate : Bool) : DB × AttemptOutcome × Nat :=
  match generate_draft_async env db task_id force_regenerate with
  | (db1, Except.ok r, n) => (db1, AttemptOutcome.ok r, n)
  | (db1, Except.error e, n) =>
    let db2 := update_task_failed db1 task_id e
    if retries < celery_max_retries then
      (db2, AttemptOutcome.retryScheduled (DRAFT_RETRY_BACKOFF_FACTOR ^ retries * 60) e, n)
    else
      (db2, AttemptOutcome.failedFinal e, n)

/-- The at-least-once queue redelivering the job whenever the worker asked
for a retry (the Celery `self.retry` redispatch loop).  Returns the final
store, the list of scheduled backoff countdowns, the total number of
invocations performed, and the last outcome.  `fuel` bounds the recursion
and is irrelevant as soon as it exceeds `celery_max_retries`. -/
def run_auto_attempts (env : WorkerEnv) (task_id : Nat) (force : Bool) :
    Nat → Nat → DB → DB × List ℚ × Nat × AttemptOutcome
  | 0, _, db => (db, [], 0, AttemptOutcome.failedFinal "out of fuel")
  | Nat.succ fuel, retries, db =>
    match generate_ai_draft env retries db task_id force with
    | (db1, AttemptOutcome.retryScheduled c _e, _) =>
      let (db2, cs, k, out) := run_auto_attempts env task_id force fuel (retries + 1) db1
      (db2, c :: cs, k + 1, out)
    | (db1, out, _) => (db1, [], 1, out)

/-! ## Task creation (`app/workers/tasks_parse.py`, lines 153-164) -/

/-- The task row created per extracted table: explicit
`status=AWAITING_DRAFT, draft_status=QUEUED, priority=0,
allocation_hold=True`, column defaults `retry_count=0, last_error=NULL`. -/
def newTask (s : TableSchema) : TaskRec :=
  { status := TaskStatus.awaiting_draft
    draft_status := DraftStatus.queued
    priority := 0
    allocation_hold := true
    retry_count := 0
    last_error := none
    parsed_table := some s }

/-- `_process_pdf_async` adding one task row for a parsed table. -/
def process_pdf_create_task (db : DB) (tid : Nat) (s : TableSchema) : DB :=
  { db with tasks := db.tasks ++ [(tid, newTask s)] }

/-! ## Manual retry endpoint (`app/api/v1/routes_tasks.py`, lines 252-317) -/

inductive RetryOutcome where
  | notFound
  | rejected (detail : String)
  | retried (new_status : TaskStatus) (new_draft_status : DraftStatus)
deriving DecidableEq, Repr

/-- `retry_draft_generation`: HTTP 400 unless `draft_status == FAILED`;
otherwise reset `status=AWAITING_DRAFT, draft_status=QUEUED,
last_error=None, allocation_hold=True` (and leave `retry_count` alone). -/
def retry_draft_generation (db : DB) (tid : Nat) : DB × RetryOutcome :=
  match db.getTask tid with
  | none => (db, RetryOutcome.notFound)
  | some task =>
    if task.draft_status = DraftStatus.failed then
      let t := { task with
        status := TaskStatus.awaiting_draft
        draft_status := DraftStatus.queued
        last_error := none
        allocation_hold := true }
      (db.setTask tid t, RetryOutcome.retried t.status t.draft_status)
    else
      (db, RetryOutcome.rejected "Task cannot be retried")

/-! ## Manual generation endpoint (`app/api/v1/routes_drafts.py`, lines
156-229) -/

inductive GenerateOutcome where
  | notFound
  | draftExists
  | badStatus
  | queuedOk (draft_status : DraftStatus)
deriving DecidableEq, Repr

/-- `generate_draft`: reject if a draft exists and no force flag, reject
unless `status ∈ {AWAITING_DRAFT, READY_FOR_ANNOTATION}`; otherwise set
`draft_status=QUEUED` (and on forced regeneration of a READY task, move
`status` back to AWAITING_DRAFT).  Note: `allocation_hold` is not written
on this path. -/
def generate_draft_endpoint (db : DB) (tid : Nat) (force_regenerate : Bool) :
    DB × GenerateOutcome :=
  match db.getTask tid with
  | none => (db, GenerateOutcome.notFound)
  | some task =>
    if (db.draftForTask tid).isSome ∧ force_regenerate = false then
      (db, GenerateOutcome.draftExists)
    else if ¬ (task.status = TaskStatus.awaiting_draft ∨
               task.status = TaskStatus.ready_for_annot) then
      (db, GenerateOutcome.badStatus)
    else
      let st1 := if task.status = TaskStatus.ready_for_annot ∧ force_regenerate = true
        then TaskStatus.awaiting_draft else task.status
      let t := { task with draft_status := DraftStatus.queued, status := st1 }
      (db.setTask tid t, GenerateOutcome.queuedOk t.draft_status)

/-! ## Reachable stores -/

/-- The stores reachable through the operations of the subsystem: task
creation after parsing, worker invocations (with arbitrary environments,
duplicate deliveries and retry counts), the manual retry endpoint and the
manual generation endpoint. -/
inductive Reachable : DB → Prop where
  | init : Reachable DB.empty
  | create (db : DB) (tid : Nat) (s : TableSchema) :
      Reachable db → db.getTask tid = none →
      Reachable (process_pdf_create_task db tid s)
  | worker (db : DB) (env : WorkerEnv) (retries tid : Nat) (force : Bool) :
      Reachable db → Reachable (generate_ai_draft env retries db tid force).1
  | retryEp (db : DB) (tid : Nat) :
      Reachable db → Reachable (retry_draft_generation db tid).1
  | generateEp (db : DB) (tid : Nat) (force : Bool) :
      Reachable db → Reachable (generate_draft_endpoint db tid force).1

/-- A task stored with `draft_status=QUEUED` while `allocation_hold=false`
(the combination claim C7 asserts is unreachable). -/
def queuedWithoutHold (db : DB) (tid : Nat) : Bool :=
  match db.getTask tid with
  | some t => t.draft_status == DraftStatus.queued && !t.allocation_hold
  | none => false

/-! ## QA review cycle

The source declares the `HumanEdit` and `QACheck` tables
(`app/db/models/tasks.py` lines 255-366) but contains no operation that
records a QA verdict and applies the PASS/FAIL transition; only the export
route reads `QACheck` rows back. -/

structure HumanEditRec where
  user_id : Nat
  edited_text : String
deriving DecidableEq, Repr

structure QACheckRec where
  reviewer_id : Nat
  result : QAResult
  comments : Option String
deriving DecidableEq, Repr

/-- Modelled from the spec: the review-relevant projection of one task —
its workflow status, its human edits against the current draft (most recent
first; the most recent is authoritative for QA), its QA checks (most recent
first) and the recorded previous annotator.  The source has no QA-recording
operation, so this state and the two operations below follow §4.1/§4.5 of
the specification. -/
structure QAState where
  status : TaskStatus
  edits : List HumanEditRec
  checks : List QACheckRec
  previous_annotator : Option Nat
deriving DecidableEq, Repr

/-- Modelled from the spec: `record_human_edit` — an annotator submits an
edit against the current draft.  Per §4.1 an edit is submitted from
IN_PROGRESS (or from the IN_PROGRESS-equivalent REASSIGNED state) and moves
the task to QA_PENDING; any other state — in particular the terminal
QA_DONE — rejects with `InvalidStateTransition`. -/
def record_human_edit (st : QAState) (user : Nat) (text : String) :
    Except String QAState :=
  if st.status = TaskStatus.in_progress ∨ st.status = TaskStatus.reassigned then
    Except.ok { st with
      edits := { user_id := user, edited_text := text } :: st.edits
      status := TaskStatus.qa_pending }
  else
    Except.error "InvalidStateTransition"

/-- Modelled from the spec: `record_qa` — a reviewer records a verdict
against the most recent edit.  Per §4.1/§4.5 a check is accepted only in
QA_PENDING; PASS moves the task to the terminal QA_DONE, FAIL moves it to
REASSIGNED, retaining the failing edit and the reviewer comments and
recording the previous annotator. -/
def record_qa (st : QAState) (reviewer : Nat) (result : QAResult)
    (comments : Option String) : Except String QAState :=
  if st.status = TaskStatus.qa_pending then
    match st.edits with
    | [] => Except.error "NotFound"
    | latest :: _ =>
      match result with
      | QAResult.pass =>
        Except.ok { st with
          status := TaskStatus.qa_done
          checks := { reviewer_id := reviewer, result := result,
                      comments := comments } :: st.checks }
      | QAResult.fail =>
        Except.ok { st with
          status := TaskStatus.reassigned
          checks := { reviewer_id := reviewer, result := result,
                      comments := comments } :: st.checks
          previous_annotator := some latest.user_id }
  else
    Except.error "InvalidStateTransition"

/-! ## Concrete fixtures used by witnesses and counterexamples -/

/-- A small concrete table schema. -/
def sampleSchema : TableSchema :=
  { meta := { detector := "camelot", confidence := 0.9 }
    cells := [{ row := 0, col := 0, text := "name", is_header := true },
              { row := 0, col := 1, text := "limit", is_header := true },
              { row := 1, col := 0, text := "alpha", is_header := false },
              { row := 1, col := 1, text := "10", is_header := false }]
    n_rows := 2
    n_cols := 2
    page := 1 }

/-- A concrete provider response. -/
def sampleResp : ProviderResp :=
  { text := "Draft text.", prompt_tokens := 120, completion_tokens := 80,
    total_tokens := 200 }

/-- A concrete worker environment whose provider always succeeds. -/
def okEnv : WorkerEnv :=
  { sha256hex := fun s => s
    provider := fun _ => Except.ok sampleResp
    api_key := some "sk-test"
    default_model := "gpt-4o-mini"
    gen_time_ms := 5 }

/-- A concrete worker environment with no API key configured (the provider
function is irrelevant on that path). -/
def mockEnv : WorkerEnv :=
  { sha256hex := fun s => s
    provider := fun _ => Except.error "unreachable"
    api_key := none
    default_model := "gpt-4o-mini"
    gen_time_ms := 5 }

/-- A concrete worker environment whose provider always fails. -/
def downEnv : WorkerEnv :=
  { sha256hex := fun s => s
    provider := fun _ => Except.error "rate limited"
    api_key := some "sk-test"
    default_model := "gpt-4o-mini"
    gen_time_ms := 5 }

/-- A concrete pre-existing draft row for task 1. -/
def sampleDraft : AIDraft :=
  { id := 7
    task_id := 1
    model_name := "gpt-4o-mini"
    prompt_version := "v1.0"
    prompt_hash := "deadbeef"
    draft_text := "old text"
    trace_json := none
    usage := Usage.counted 1 1 2 0.001
    generation_time_ms := 3
    temperature := 0.7 }

/-- The store of the cross-task-reuse scenario: two freshly created tasks
over tables `s1` and `s2`, no drafts yet. -/
def twoTaskDB (s1 s2 : TableSchema) : DB :=
  ⟨[(1, newTask s1), (2, newTask s2)], [], 0⟩

/-- The allocation-gate invariant that does hold on every reachable store:
a task whose `allocation_hold` has been cleared owns at least one draft
row.  (It is weaker than claim C7, which additionally demands
`draft_status=SUCCEEDED` whenever the hold is clear.) -/
def HoldInv (db : DB) : Prop :=
  ∀ p ∈ db.tasks, p.2.allocation_hold = false → ∃ d ∈ db.drafts, d.task_id = p.1

/-! # Theorems -/

@[simp] theorem draftForTask_setTask (db : DB) (tid k : Nat) (t : TaskRec) :
    (db.setTask tid t).draftForTask k = db.draftForTask k := rfl

@[simp] theorem draftWithHash_setTask (db : DB) (tid : Nat) (t : TaskRec)
    (h : String) : (db.setTask tid t).draftWithHash h = db.draftWithHash h := rfl

/-- Path lemma: the already-exists exit of `_generate_draft_async`
(lines 123-141).  When the task has a draft and no force flag, the run
returns the skipped outcome with zero provider calls; the task keeps
`last_error` and `retry_count` and is rewritten to
`(READY_FOR_ANNOTATION, SUCCEEDED, allocation_hold=false)`. -/
theorem gda_skip (env : WorkerEnv) (db : DB) (tid : Nat) (task : TaskRec)
    (own : AIDraft)
    (hget : db.getTask tid = some task)
    (hown : db.draftForTask tid = some own) :
    generate_draft_async env db tid false =
      ((db.setTask tid { task with draft_status := DraftStatus.generating }).setTask
         tid { task with
           status := TaskStatus.ready_for_annot
           draft_status := DraftStatus.succeeded
           allocation_hold := false },
       Except.ok (RunResult.skipped own.id), 0) := by
  unfold generate_draft_async
  rw [hget]
  simp only [draftForTask_setTask, hown]

/-- Path lemma: the cross-task-reuse exit of `_generate_draft_async`
(lines 157-195).  When the task has no draft of its own but some draft with
the same prompt hash exists, a new draft row referencing the reused content
is inserted (usage tagged reused, generation time 0) with zero provider
calls; the task keeps `last_error` and is rewritten to
`(READY_FOR_ANNOTATION, SUCCEEDED, allocation_hold=false)`. -/
theorem gda_reuse (env : WorkerEnv) (db : DB) (tid : Nat) (task : TaskRec)
    (table : TableSchema) (existing : AIDraft)
    (hget : db.getTask tid = some task)
    (hown : db.draftForTask tid = none)
    (htab : task.parsed_table = some table)
    (hhash : db.draftWithHash
      (env.sha256hex (env.default_model ++ ":" ++ create_prompt table)) =
      some existing) :
    generate_draft_async env db tid false =
      (((db.setTask tid { task with draft_status := DraftStatus.generating }).addDraft
          (fun i => { id := i
                      task_id := tid
                      model_name := existing.model_name
                      prompt_version := existing.prompt_version
                      prompt_hash := env.sha256hex
                        (env.default_model ++ ":" ++ create_prompt table)
                      draft_text := existing.draft_text
                      trace_json := existing.trace_json
                      usage := Usage.reused existing.id
                      generation_time_ms := 0
                      temperature := existing.temperature })).1.setTask tid
         { task with
           status := TaskStatus.ready_for_annot
           draft_status := DraftStatus.succeeded
           allocation_hold := false },
       Except.ok (RunResult.reusedDraft db.next_draft_id existing.id
         (env.sha256hex (env.default_model ++ ":" ++ create_prompt table))), 0) := by
  unfold generate_draft_async
  rw [hget]
  simp only [draftForTask_setTask, hown, htab, draftWithHash_setTask, hhash]
  rfl

/-- Path lemma: the fresh-generation exit of `_generate_draft_async`
(lines 197-248).  When the task has no draft, no hash-matching draft
exists, an API key is configured and the provider answers, a new draft row
with the measured usage is inserted with exactly one provider call, and the
task is rewritten to `(READY_FOR_ANNOTATION, SUCCEEDED,
allocation_hold=false)` with `last_error` cleared. -/
theorem gda_fresh (env : WorkerEnv) (db : DB) (tid : Nat) (task : TaskRec)
    (table : TableSchema) (key : String) (resp : ProviderResp)
    (hget : db.getTask tid = some task)
    (hown : db.draftForTask tid = none)
    (htab : task.parsed_table = some table)
    (hhash : db.draftWithHash
      (env.sha256hex (env.default_model ++ ":" ++ create_prompt table)) = none)
    (hkey : env.api_key = some key)
    (hprov : env.provider (create_prompt table) = Except.ok resp) :
    generate_draft_async env db tid false =
      (((db.setTask tid { task with draft_status := DraftStatus.generating }).addDraft
          (fun i => { id := i
                      task_id := tid
                      model_name := env.default_model
                      prompt_version := "v1.0"
                      prompt_hash := env.sha256hex
                        (env.default_model ++ ":" ++ create_prompt table)
                      draft_text := resp.text
                      trace_json := some (Trace.real resp.prompt_tokens
                        resp.completion_tokens resp.total_tokens env.default_model
                        0.7 (promptPreview (create_prompt table)))
                      usage := Usage.counted resp.prompt_tokens
                        resp.completion_tokens resp.total_tokens
                        (calculate_cost env.default_model resp.prompt_tokens
                          resp.completion_tokens)
                      generation_time_ms := env.gen_time_ms
                      temperature := 0.7 })).1.setTask tid
         { task with
           status := TaskStatus.ready_for_annot
           draft_status := DraftStatus.succeeded
           allocation_hold := false
           last_error := none },
       Except.ok (RunResult.generated db.next_draft_id env.gen_time_ms
         (env.sha256hex (env.default_model ++ ":" ++ create_prompt table))), 1) := by
  unfold generate_draft_async
  rw [hget]
  simp only [draftForTask_setTask, hown, htab, draftWithHash_setTask, hhash,
    DraftService.generate_draft, hkey, hprov]
  rfl

/-- Claim C10: for every model name and non-negative token counts `(i, o)`
the derived cost equals `round(i/1000 * rate_in + o/1000 * rate_out, 6)`
with the rates taken from the per-model table for `gpt-4o-mini`, `gpt-4o`
and `gpt-3.5-turbo`, and every other model name silently falling back to
the default rates `(0.001, 0.002)` per 1000 tokens rather than being
rejected. -/
theorem c10_cost_formula (model : String) (i o : Nat) :
    calculate_cost model i o = claimCost model i o := by
  unfold calculate_cost claimCost claimRates token_costs
  by_cases h1 : model = "gpt-4o-mini"
  · simp [List.lookup, h1]
  · by_cases h2 : model = "gpt-4o"
    · simp [List.lookup, h1, h2]
    · by_cases h3 : model = "gpt-3.5-turbo"
      · simp [List.lookup, h1, h2, h3]
      · have b1 : (model == "gpt-4o-mini") = false := by simp [h1]
        have b2 : (model == "gpt-4o") = false := by simp [h2]
        have b3 : (model == "gpt-3.5-turbo") = false := by simp [h3]
        simp [List.lookup, h1, h2, h3, b1, b2, b3]

/-- Claim C6: manual retry (`retry_draft_generation`) rejects whenever the
stored `draft_status` is not FAILED, leaving the store unchanged; when it is
FAILED it resets the task to `status=AWAITING_DRAFT, draft_status=QUEUED`,
sets `allocation_hold=true`, clears `last_error`, and leaves `retry_count`
unmodified. -/
theorem c6_manual_retry_guard (db : DB) (tid : Nat) (task : TaskRec)
    (hget : db.getTask tid = some task) :
    retry_draft_generation db tid =
      (if task.draft_status = DraftStatus.failed then
        (db.setTask tid { task with
          status := TaskStatus.awaiting_draft
          draft_status := DraftStatus.queued
          last_error := none
          allocation_hold := true },
         RetryOutcome.retried TaskStatus.awaiting_draft DraftStatus.queued)
      else (db, RetryOutcome.rejected "Task cannot be retried")) := by
  by_cases h : task.draft_status = DraftStatus.failed <;>
    simp [retry_draft_generation, hget, h]

/-- Witness for C6 at a concrete store: one FAILED task with
`retry_count = 2` is reset to `(AWAITING_DRAFT, QUEUED)` with the hold
re-set, the error cleared and the retry count untouched. -/
theorem c6_manual_retry_guard_witness :
    retry_draft_generation
      ⟨[(1, ⟨TaskStatus.draft_failed, DraftStatus.failed, 0, true, 2,
             some "boom", some sampleSchema⟩)], [], 0⟩ 1 =
      (⟨[(1, ⟨TaskStatus.awaiting_draft, DraftStatus.queued, 0, true, 2,
              none, some sampleSchema⟩)], [], 0⟩,
       RetryOutcome.retried TaskStatus.awaiting_draft DraftStatus.queued) := by
  have h := c6_manual_retry_guard
    ⟨[(1, ⟨TaskStatus.draft_failed, DraftStatus.failed, 0, true, 2,
           some "boom", some sampleSchema⟩)], [], 0⟩ 1
    ⟨TaskStatus.draft_failed, DraftStatus.failed, 0, true, 2,
     some "boom", some sampleSchema⟩ rfl
  simpa using h

/-- Claim C9 counterexample: with the provider API key missing, a worker
invocation on a queued task is NOT aborted — it completes, persists a
(mock) draft row and marks the task SUCCEEDED, with zero provider calls and
no configuration failure; the claim asserts that no generation attempt
under missing credentials completes and persists a Draft. -/
theorem c9_counterexample :
    let db0 : DB := ⟨[(1, newTask sampleSchema)], [], 0⟩
    let r := generate_draft_async mockEnv db0 1 false
    r.2.2 = 0 ∧
    r.1.drafts.length = 1 ∧
    (r.1.getTask 1).map TaskRec.draft_status = some DraftStatus.succeeded :=
  ⟨rfl, rfl, rfl⟩

/-- Claim C9 (amended): missing credentials are not detected at startup nor
per task: for every task, a generation attempt with no API key configured
silently falls back to the mock generator — zero provider calls, a
persisted draft row whose usage carries the estimated token counts and the
fixed mock cost 0.001 and whose trace is marked mock, and the task ends
SUCCEEDED with `last_error` cleared. -/
theorem c9_amended (sha : String → String)
    (provider : String → Except String ProviderResp) (model : String)
    (gt : Nat) (s : TableSchema) (st : TaskStatus) (ds : DraftStatus)
    (hold : Bool) (rc : Nat) (le : Option String) :
    let env : WorkerEnv := ⟨sha, provider, none, model, gt⟩
    let db0 : DB := ⟨[(1, ⟨st, ds, 0, hold, rc, le, some s⟩)], [], 0⟩
    let r := generate_draft_async env db0 1 false
    r.2.2 = 0 ∧
    (∃ d, r.1.drafts = [d] ∧
      d.usage = Usage.counted ((create_prompt s).length / 4)
        ((mock_text s).length / 4)
        ((create_prompt s).length / 4 + (mock_text s).length / 4) 0.001 ∧
      d.trace_json = some Trace.mock ∧ d.task_id = 1) ∧
    (r.1.getTask 1).map TaskRec.draft_status = some DraftStatus.succeeded ∧
    (r.1.getTask 1).map TaskRec.last_error = some none :=
  ⟨rfl, ⟨_, rfl, rfl, rfl, rfl⟩, rfl, rfl⟩

/-- Claim C1 counterexample: a worker invocation on a task whose stored
`draft_status` is GENERATING (not QUEUED) does not abort: the provider is
called once and the task record is mutated — the QUEUED→GENERATING
transition is an unconditional write, not a failing compare-and-swap. -/
theorem c1_counterexample :
    let t : TaskRec := ⟨TaskStatus.awaiting_draft, DraftStatus.generating, 0,
      true, 0, none, some sampleSchema⟩
    let db0 : DB := ⟨[(1, t)], [], 0⟩
    let r := generate_draft_async okEnv db0 1 false
    r.2.2 = 1 ∧ r.1 ≠ db0 :=
  ⟨rfl, by decide⟩

/-- Claim C1 (amended): the worker performs no compare-and-swap on
`draft_status`: it overwrites it with GENERATING unconditionally and
proceeds.  For every stored `draft_status` (QUEUED or not), an invocation
on a task without an existing draft and without a hash-matching draft
reaches the provider exactly once and completes with
`draft_status=SUCCEEDED`; in particular a duplicate invocation that begins
while the task is already GENERATING also reaches the provider, so the
only aborts before the provider call come from the draft-already-exists
and hash-reuse checks, not from the stored status. -/
theorem c1_amended (sha : String → String) (resp : ProviderResp)
    (key model : String) (gt : Nat) (s : TableSchema) (ds : DraftStatus)
    (st : TaskStatus) (hold : Bool) (rc : Nat) (le : Option String) :
    let env : WorkerEnv := ⟨sha, fun _ => Except.ok resp, some key, model, gt⟩
    let db0 : DB := ⟨[(1, ⟨st, ds, 0, hold, rc, le, some s⟩)], [], 0⟩
    let r := generate_draft_async env db0 1 false
    r.2.2 = 1 ∧
    (∃ t1, r.1.getTask 1 = some t1 ∧ t1.draft_status = DraftStatus.succeeded ∧
      t1.status = TaskStatus.ready_for_annot) ∧
    r.1.drafts.length = 1 :=
  ⟨rfl, ⟨_, rfl, rfl, rfl⟩, rfl⟩

/-- Claim C3: two tasks whose tables yield identical canonical prompts
under the same model name produce drafts with equal `prompt_hash`; the
provider is invoked exactly once across both generation runs, and the
draft of the second task is synthesized from the first with its usage tagged as
reused and no network call. -/
theorem c3_cross_task_reuse (sha : String → String) (resp : ProviderResp)
    (key model : String) (gt : Nat) (s1 s2 : TableSchema)
    (hp : create_prompt s1 = create_prompt s2) :
    let env : WorkerEnv := ⟨sha, fun _ => Except.ok resp, some key, model, gt⟩
    let r1 := generate_draft_async env (twoTaskDB s1 s2) 1 false
    let r2 := generate_draft_async env r1.1 2 false
    r1.2.2 + r2.2.2 = 1 ∧
    (∃ d1 d2, r2.1.drafts = [d1, d2] ∧
      d1.task_id = 1 ∧ d2.task_id = 2 ∧
      d2.prompt_hash = d1.prompt_hash ∧
      d2.usage = Usage.reused d1.id ∧
      d2.draft_text = d1.draft_text) ∧
    (r2.1.getTask 1).map TaskRec.draft_status = some DraftStatus.succeeded ∧
    (r2.1.getTask 2).map TaskRec.draft_status = some DraftStatus.succeeded := by
  intro env r1 r2
  have hr1 : r1 =
      (⟨[(1, ⟨TaskStatus.ready_for_annot, DraftStatus.succeeded, 0, false, 0,
              none, some s1⟩),
         (2, newTask s2)],
        [⟨0, 1, model, "v1.0", sha (model ++ ":" ++ create_prompt s1), resp.text,
          some (Trace.real resp.prompt_tokens resp.completion_tokens
            resp.total_tokens model 0.7 (promptPreview (create_prompt s1))),
          Usage.counted resp.prompt_tokens resp.completion_tokens
            resp.total_tokens
            (calculate_cost model resp.prompt_tokens resp.completion_tokens),
          gt, 0.7⟩], 1⟩,
       Except.ok (RunResult.generated 0 gt
         (sha (model ++ ":" ++ create_prompt s1))), 1) :=
    Eq.trans (gda_fresh env (twoTaskDB s1 s2) 1 (newTask s1) s1 key resp
      rfl rfl rfl rfl rfl rfl) rfl
  have hsha : sha (model ++ ":" ++ create_prompt s2) =
      sha (model ++ ":" ++ create_prompt s1) := by rw [hp]
  have hh2 : r1.1.draftWithHash (env.sha256hex
      (env.default_model ++ ":" ++ create_prompt s2)) =
      some ⟨0, 1, model, "v1.0", sha (model ++ ":" ++ create_prompt s1),
        resp.text,
        some (Trace.real resp.prompt_tokens resp.completion_tokens
          resp.total_tokens model 0.7 (promptPreview (create_prompt s1))),
        Usage.counted resp.prompt_tokens resp.completion_tokens
          resp.total_tokens
          (calculate_cost model resp.prompt_tokens resp.completion_tokens),
        gt, 0.7⟩ := by
    rw [hr1]
    show List.find? _ _ = _
    rw [show env.sha256hex (env.default_model ++ ":" ++ create_prompt s2) =
      sha (model ++ ":" ++ create_prompt s1) from hsha]
    simp [List.find?]
  have hr2 : r2 =
      (⟨[(1, ⟨TaskStatus.ready_for_annot, DraftStatus.succeeded, 0, false, 0,
              none, some s1⟩),
         (2, ⟨TaskStatus.ready_for_annot, DraftStatus.succeeded, 0, false, 0,
              none, some s2⟩)],
        [⟨0, 1, model, "v1.0", sha (model ++ ":" ++ create_prompt s1), resp.text,
          some (Trace.real resp.prompt_tokens resp.completion_tokens
            resp.total_tokens model 0.7 (promptPreview (create_prompt s1))),
          Usage.counted resp.prompt_tokens resp.completion_tokens
            resp.total_tokens
            (calculate_cost model resp.prompt_tokens resp.completion_tokens),
          gt, 0.7⟩,
         ⟨1, 2, model, "v1.0", sha (model ++ ":" ++ create_prompt s2), resp.text,
          some (Trace.real resp.prompt_tokens resp.completion_tokens
            resp.total_tokens model 0.7 (promptPreview (create_prompt s1))),
          Usage.reused 0, 0, 0.7⟩], 2⟩,
       Except.ok (RunResult.reusedDraft 1 0
         (sha (model ++ ":" ++ create_prompt s2))), 0) := by
    have step := gda_reuse env r1.1 2 (newTask s2) s2
      ⟨0, 1, model, "v1.0", sha (model ++ ":" ++ create_prompt s1), resp.text,
        some (Trace.real resp.prompt_tokens resp.completion_tokens
          resp.total_tokens model 0.7 (promptPreview (create_prompt s1))),
        Usage.counted resp.prompt_tokens resp.completion_tokens
          resp.total_tokens
          (calculate_cost model resp.prompt_tokens resp.completion_tokens),
        gt, 0.7⟩
      (by rw [hr1]; rfl) (by rw [hr1]; rfl) rfl hh2
    refine Eq.trans step ?_
    rw [hr1]
    rfl
  rw [hr1, hr2]
  refine ⟨rfl, ⟨_, _, rfl, rfl, rfl, ?_, rfl, rfl⟩, rfl, rfl⟩
  show sha (model ++ ":" ++ create_prompt s2) =
    sha (model ++ ":" ++ create_prompt s1)
  exact hsha

/-- Witness for C3: the two-task scenario instantiated with a concrete
schema (both tables equal, so the canonical prompts agree by reflexivity),
a concrete hash function and a concrete provider response. -/
theorem c3_cross_task_reuse_witness :
    let env : WorkerEnv := ⟨fun s => s, fun _ => Except.ok sampleResp,
      some "sk-test", "gpt-4o-mini", 5⟩
    let r1 := generate_draft_async env (twoTaskDB sampleSchema sampleSchema) 1 false
    let r2 := generate_draft_async env r1.1 2 false
    r1.2.2 + r2.2.2 = 1 ∧
    (∃ d1 d2, r2.1.drafts = [d1, d2] ∧
      d1.task_id = 1 ∧ d2.task_id = 2 ∧
      d2.prompt_hash = d1.prompt_hash ∧
      d2.usage = Usage.reused d1.id ∧
      d2.draft_text = d1.draft_text) ∧
    (r2.1.getTask 1).map TaskRec.draft_status = some DraftStatus.succeeded ∧
    (r2.1.getTask 2).map TaskRec.draft_status = some DraftStatus.succeeded :=
  c3_cross_task_reuse (fun s => s) sampleResp "sk-test" "gpt-4o-mini" 5
    sampleSchema sampleSchema rfl

/-- Claim C5 (amended): for a task in GENERATING, every successful exit
rewrites the record to `(status=READY_FOR_ANNOTATION,
draft_status=SUCCEEDED, allocation_hold=false)`, but only the
fresh-generation exit clears `last_error`; the already-exists and
cross-task-reuse exits retain the stored `last_error` unchanged. -/
theorem c5_amended (envA : WorkerEnv) (sha : String → String)
    (resp : ProviderResp) (key model : String) (gt : Nat) (s : TableSchema)
    (st : TaskStatus) (hold : Bool) (rc n : Nat) (le : Option String)
    (d0 : AIDraft) :
    ((generate_draft_async envA
        ⟨[(1, ⟨st, DraftStatus.generating, 0, hold, rc, le, some s⟩)],
         [{ d0 with task_id := 1 }], n⟩ 1 false).1.getTask 1 =
      some ⟨TaskStatus.ready_for_annot, DraftStatus.succeeded, 0, false, rc,
        le, some s⟩) ∧
    ((generate_draft_async envA
        ⟨[(1, ⟨st, DraftStatus.generating, 0, hold, rc, le, some s⟩)],
         [{ d0 with
            task_id := 2
            prompt_hash := envA.sha256hex
              (envA.default_model ++ ":" ++ create_prompt s) }], n⟩
        1 false).1.getTask 1 =
      some ⟨TaskStatus.ready_for_annot, DraftStatus.succeeded, 0, false, rc,
        le, some s⟩) ∧
    ((generate_draft_async ⟨sha, fun _ => Except.ok resp, some key, model, gt⟩
        ⟨[(1, ⟨st, DraftStatus.generating, 0, hold, rc, le, some s⟩)], [], n⟩
        1 false).1.getTask 1 =
      some ⟨TaskStatus.ready_for_annot, DraftStatus.succeeded, 0, false, rc,
        none, some s⟩) := by
  refine ⟨rfl, ?_, rfl⟩
  have hh : DB.draftWithHash
      ⟨[(1, ⟨st, DraftStatus.generating, 0, hold, rc, le, some s⟩)],
       [{ d0 with
          task_id := 2
          prompt_hash := envA.sha256hex
            (envA.default_model ++ ":" ++ create_prompt s) }], n⟩
      (envA.sha256hex (envA.default_model ++ ":" ++ create_prompt s)) =
      some { d0 with
        task_id := 2
        prompt_hash := envA.sha256hex
          (envA.default_model ++ ":" ++ create_prompt s) } := by
    simp [DB.draftWithHash, List.find?]
  rw [gda_reuse envA
    ⟨[(1, ⟨st, DraftStatus.generating, 0, hold, rc, le, some s⟩)],
     [{ d0 with
        task_id := 2
        prompt_hash := envA.sha256hex
          (envA.default_model ++ ":" ++ create_prompt s) }], n⟩
    1 ⟨st, DraftStatus.generating, 0, hold, rc, le, some s⟩ s
    { d0 with
      task_id := 2
      prompt_hash := envA.sha256hex
        (envA.default_model ++ ":" ++ create_prompt s) }
    rfl rfl rfl hh]
  rfl

/-- Claim C4 counterexample: invoking generation (no force flag) on a task
with `draft_status=SUCCEEDED`, an existing draft and `status=IN_PROGRESS`
changes the task record: `status` is rewritten to READY_FOR_ANNOTATION, so
the invocation is not free of task-record writes. -/
theorem c4_counterexample :
    let t : TaskRec := ⟨TaskStatus.in_progress, DraftStatus.succeeded, 0,
      false, 0, none, some sampleSchema⟩
    let db0 : DB := ⟨[(1, t)], [sampleDraft], 8⟩
    let r := generate_draft_async okEnv db0 1 false
    (r.1.getTask 1).map TaskRec.status = some TaskStatus.ready_for_annot ∧
    (r.1.getTask 1).map TaskRec.status ≠ some TaskStatus.in_progress :=
  ⟨rfl, by decide⟩

/-- Claim C4 (amended): invoking generation twice without the force flag on
a task with `draft_status=SUCCEEDED` and an existing draft creates no new
draft row and makes no provider call (both invocations short-circuit with
the skipped outcome), and both invocations force the task record to
`(status=READY_FOR_ANNOTATION, draft_status=SUCCEEDED,
allocation_hold=false)` while retaining `retry_count` and `last_error`; the
second invocation is a no-op on the store, and so is the first exactly when
the task already carries those normalized field values. -/
theorem c4_amended (env : WorkerEnv) (s : TableSchema) (st : TaskStatus)
    (hold : Bool) (rc : Nat) (le : Option String) (d0 : AIDraft) (n : Nat) :
    let t : TaskRec := ⟨st, DraftStatus.succeeded, 0, hold, rc, le, some s⟩
    let db0 : DB := ⟨[(1, t)], [{ d0 with task_id := 1 }], n⟩
    let r1 := generate_draft_async env db0 1 false
    let r2 := generate_draft_async env r1.1 1 false
    r1.2.1 = Except.ok (RunResult.skipped d0.id) ∧
    r2.2.1 = Except.ok (RunResult.skipped d0.id) ∧
    r1.2.2 = 0 ∧ r2.2.2 = 0 ∧
    r1.1.drafts = db0.drafts ∧ r2.1.drafts = db0.drafts ∧
    r2.1 = r1.1 ∧
    r1.1.getTask 1 = some ⟨TaskStatus.ready_for_annot, DraftStatus.succeeded,
      0, false, rc, le, some s⟩ :=
  ⟨rfl, rfl, rfl, rfl, rfl, rfl, rfl, rfl⟩

/-- Claim C5 counterexample: a task in GENERATING with a stored
`last_error` and an existing draft reaches the successful already-exists
exit with `draft_status=SUCCEEDED`, but `last_error` is retained, not
cleared as the claim states for all successful paths. -/
theorem c5_counterexample :
    let t : TaskRec := ⟨TaskStatus.awaiting_draft, DraftStatus.generating, 0,
      true, 1, some "boom", some sampleSchema⟩
    let db0 : DB := ⟨[(1, t)], [sampleDraft], 8⟩
    let r := generate_draft_async okEnv db0 1 false
    (r.1.getTask 1).map TaskRec.draft_status = some DraftStatus.succeeded ∧
    (r.1.getTask 1).map TaskRec.last_error = some (some "boom") ∧
    (r.1.getTask 1).map TaskRec.last_error ≠ some none :=
  ⟨rfl, rfl, by decide⟩

/-- Claim C2 counterexample: with a provider that fails on every call, a
freshly queued task is attempted four times in total — after the third
consecutive failure (`retry_count = 3`) a fourth automatic attempt IS
scheduled, and the task ends with `retry_count = 4`, contradicting the
claimed bound (`retry_count == 3`, no 4th automatic attempt). -/
theorem c2_counterexample :
    let db0 : DB := ⟨[(1, newTask sampleSchema)], [], 0⟩
    let r := run_auto_attempts downEnv 1 false 10 0 db0
    r.2.2.1 = 4 ∧
    (r.1.getTask 1).map TaskRec.retry_count = some 4 ∧
    ¬ (r.2.2.1 = 3 ∧ (r.1.getTask 1).map TaskRec.retry_count = some 3) :=
  ⟨rfl, rfl, by decide⟩

/-- Claim C2 (amended): each generation failure sets `draft_status=FAILED`,
stores the error text and increments `retry_count` by one, and a re-attempt
is scheduled with delay `backoff_factor^k * 60` where `k` is the number of
automatic retries already performed (one less than the just-incremented
`retry_count`), as long as `k < 3`.  Consequently a perpetually failing
task is attempted 4 times in total with backoff delays 60, 120 and 240, and
ends FAILED with `retry_count = 4` and the error stored; only the 5th
attempt is never scheduled. -/
theorem c2_amended (sha : String → String) (msg key model : String)
    (gt : Nat) (s : TableSchema) :
    let env : WorkerEnv := ⟨sha, fun _ => Except.error msg, some key, model, gt⟩
    let db0 : DB := ⟨[(1, newTask s)], [], 0⟩
    let r := run_auto_attempts env 1 false 10 0 db0
    r.2.2.1 = 4 ∧
    r.2.1 = [60, 120, 240] ∧
    (∃ t, r.1.getTask 1 = some t ∧ t.draft_status = DraftStatus.failed ∧
      t.retry_count = 4 ∧
      t.last_error = some ("Failed to generate AI draft: " ++ msg)) ∧
    r.2.2.2 = AttemptOutcome.failedFinal ("Failed to generate AI draft: " ++ msg) := by
  refine ⟨rfl, ?_, ⟨_, rfl, rfl, rfl, rfl⟩, rfl⟩
  show [DRAFT_RETRY_BACKOFF_FACTOR ^ 0 * 60, DRAFT_RETRY_BACKOFF_FACTOR ^ 1 * 60,
        DRAFT_RETRY_BACKOFF_FACTOR ^ 2 * 60] = [60, 120, 240]
  norm_num [DRAFT_RETRY_BACKOFF_FACTOR]

/-! ## Allocation-gate invariant machinery (claim C7) -/

theorem lookup_mem {k : Nat} {v : TaskRec} :
    ∀ {l : List (Nat × TaskRec)}, List.lookup k l = some v → (k, v) ∈ l := by
  intro l
  induction l with
  | nil => intro h; simp [List.lookup] at h
  | cons p t ih =>
    intro h
    obtain ⟨a, b⟩ := p
    by_cases hb : k = a
    · subst hb
      simp [List.lookup] at h
      subst h
      exact List.mem_cons_self _ _
    · have hb' : (k == a) = false := by simp [hb]
      simp only [List.lookup, hb'] at h
      exact List.mem_cons_of_mem _ (ih h)

theorem mem_setTask {db : DB} {tid : Nat} {t : TaskRec} {p : Nat × TaskRec}
    (h : p ∈ (db.setTask tid t).tasks) : p = (tid, t) ∨ p ∈ db.tasks := by
  rcases List.mem_map.mp h with ⟨q, hq, hfq⟩
  by_cases hqt : q.1 = tid
  · left; rw [← hfq]; simp [hqt]
  · right; rw [← hfq]; simp only [hqt, if_false]; exact hq

theorem mem_update_failed {db : DB} {tid : Nat} {e : String}
    {p : Nat × TaskRec} (h : p ∈ (update_task_failed db tid e).tasks) :
    ∃ q ∈ db.tasks, p.1 = q.1 ∧ p.2.allocation_hold = q.2.allocation_hold := by
  rcases List.mem_map.mp h with ⟨q, hq, hfq⟩
  by_cases hqt : q.1 = tid
  · exact ⟨q, hq, by rw [← hfq]; simp [hqt], by rw [← hfq]; simp [hqt]⟩
  · exact ⟨q, hq, by rw [← hfq]; simp [hqt], by rw [← hfq]; simp [hqt]⟩

/-- Setting one task row preserves the invariant provided the new row, when
its hold is clear, is covered by an existing draft. -/
theorem holdInv_setTask {db : DB} {tid : Nat} {t : TaskRec} (h : HoldInv db)
    (hnew : t.allocation_hold = false → ∃ d ∈ db.drafts, d.task_id = tid) :
    HoldInv (db.setTask tid t) := by
  intro p hp hhold
  rcases mem_setTask hp with hpe | hp2
  · subst hpe
    exact hnew hhold
  · exact h p hp2 hhold

/-- Inserting a draft row preserves the invariant (drafts only grow). -/
theorem holdInv_addDraft {db : DB} {mk : Nat → AIDraft} (h : HoldInv db) :
    HoldInv (db.addDraft mk).1 := by
  intro p hp hhold
  rcases h p hp hhold with ⟨d, hd, hdt⟩
  exact ⟨d, List.mem_append_left _ hd, hdt⟩

/-- The failure bookkeeping preserves the invariant (it touches neither
`allocation_hold` nor the drafts). -/
theorem holdInv_update_failed {db : DB} {tid : Nat} {e : String}
    (h : HoldInv db) : HoldInv (update_task_failed db tid e) := by
  intro p hp hhold
  rcases mem_update_failed hp with ⟨q, hq, hk, hhold2⟩
  rcases h q hq (hhold2 ▸ hhold) with ⟨d, hd, hdt⟩
  exact ⟨d, hd, by rw [hk, hdt]⟩

/-- Inserting a draft row for a task and then rewriting the row of that
task preserves the invariant, whatever hold value the new row carries. -/
theorem holdInv_insert {db : DB} {tid : Nat} {t2 : TaskRec}
    {mk : Nat → AIDraft} (h : HoldInv db) (hmk : ∀ i, (mk i).task_id = tid) :
    HoldInv ((db.addDraft mk).1.setTask tid t2) := by
  refine holdInv_setTask (holdInv_addDraft h) ?_
  intro _
  exact ⟨mk db.next_draft_id, List.mem_append_right _ (by simp), hmk _⟩

/-- `_generate_draft_async` preserves the allocation-gate invariant: every
exit that clears `allocation_hold` either found an existing draft for the
task or inserts one. -/
theorem gda_holdInv (env : WorkerEnv) (db : DB) (tid : Nat) (force : Bool)
    (h : HoldInv db) : HoldInv (generate_draft_async env db tid force).1 := by
  unfold generate_draft_async
  cases hget : db.getTask tid with
  | none => exact h
  | some task =>
    have htask : (tid, task) ∈ db.tasks := lookup_mem hget
    have hold_task : task.allocation_hold = false →
        ∃ d ∈ db.drafts, d.task_id = tid := fun hf => h (tid, task) htask hf
    dsimp only
    split
    · -- already-exists exit: the found draft covers the task
      rename_i own hown
      have hown' : db.drafts.find? (fun d => d.task_id == tid) = some own := hown
      have hmem : own ∈ db.drafts := List.mem_of_find?_eq_some hown'
      have hpred : own.task_id = tid := by simpa using List.find?_some hown'
      have hcov : ∃ d ∈ db.drafts, d.task_id = tid := ⟨own, hmem, hpred⟩
      exact holdInv_setTask (holdInv_setTask h (fun hf => hold_task hf))
        (fun _ => hcov)
    · split
      · -- no parsed table: only the GENERATING write happened
        exact holdInv_setTask h (fun hf => hold_task hf)
      · split
        · -- cross-task reuse: a draft row for this task is inserted
          exact holdInv_insert (holdInv_setTask h (fun hf => hold_task hf))
            (fun _ => rfl)
        · split
          · -- provider error: only the GENERATING write happened
            exact holdInv_setTask h (fun hf => hold_task hf)
          · -- fresh generation: a draft row for this task is inserted
            exact holdInv_insert (holdInv_setTask h (fun hf => hold_task hf))
              (fun _ => rfl)

/-- The whole worker invocation (including failure bookkeeping) preserves
the invariant. -/
theorem worker_holdInv (env : WorkerEnv) (retries : Nat) (db : DB)
    (tid : Nat) (force : Bool) (h : HoldInv db) :
    HoldInv (generate_ai_draft env retries db tid force).1 := by
  unfold generate_ai_draft
  have hg := gda_holdInv env db tid force h
  split
  · rename_i db1 r n heq
    rw [heq] at hg
    exact hg
  · rename_i db1 e n heq
    rw [heq] at hg
    split
    · exact holdInv_update_failed hg
    · exact holdInv_update_failed hg

/-- Task creation preserves the invariant (the new row holds the gate). -/
theorem create_holdInv (db : DB) (tid : Nat) (s : TableSchema)
    (h : HoldInv db) : HoldInv (process_pdf_create_task db tid s) := by
  intro p hp hhold
  rcases List.mem_append.mp hp with hp1 | hp2
  · exact h p hp1 hhold
  · rcases List.mem_singleton.mp hp2 with rfl
    cases hhold

/-- The manual retry endpoint preserves the invariant (it re-sets the
hold). -/
theorem retry_holdInv (db : DB) (tid : Nat) (h : HoldInv db) :
    HoldInv (retry_draft_generation db tid).1 := by
  unfold retry_draft_generation
  split
  · exact h
  · rename_i task hget
    split
    · refine holdInv_setTask h ?_
      intro hf
      cases hf
    · exact h

/-- The manual generation endpoint preserves the invariant — but note it
re-queues without touching `allocation_hold`, which is why only the weak
invariant survives. -/
theorem generateEp_holdInv (db : DB) (tid : Nat) (force : Bool)
    (h : HoldInv db) : HoldInv (generate_draft_endpoint db tid force).1 := by
  unfold generate_draft_endpoint
  split
  · exact h
  · rename_i task hget
    have htask : (tid, task) ∈ db.tasks := lookup_mem hget
    split
    · exact h
    · split
      · exact h
      · exact holdInv_setTask h (fun hf => h (tid, task) htask hf)

/-- Claim C7 (amended): on every reachable store the allocation gate
satisfies the weaker invariant `allocation_hold = false → the task owns a
draft row`: the hold starts true at creation, is re-set by manual retry and
is cleared only by the successful generation exits, each of which
guarantees a draft row for the task.  The stronger claimed invariant —
`allocation_hold=false` only with `draft_status=SUCCEEDED`, and never
`QUEUED` with a cleared hold — fails, because the manual generation
endpoint re-queues a task without re-setting `allocation_hold`. -/
theorem c7_amended : ∀ db : DB, Reachable db → HoldInv db := by
  intro db hr
  induction hr with
  | init => intro p hp _; cases hp
  | create db tid s _ _ ih => exact create_holdInv db tid s ih
  | worker db env retries tid force _ ih =>
    exact worker_holdInv env retries db tid force ih
  | retryEp db tid _ ih => exact retry_holdInv db tid ih
  | generateEp db tid force _ ih => exact generateEp_holdInv db tid force ih

/-- Witness for C7 (amended) on a concrete reachable store: create a task,
run one (mock) generation on it. -/
theorem c7_amended_witness :
    HoldInv (generate_ai_draft mockEnv 0
      (process_pdf_create_task DB.empty 1 sampleSchema) 1 false).1 :=
  c7_amended _ (Reachable.worker _ mockEnv 0 1 false
    (Reachable.create DB.empty 1 sampleSchema Reachable.init rfl))

/-- Claim C7 counterexample: the state `draft_status=QUEUED` together with
`allocation_hold=false` IS reachable — create a task, let generation
succeed (clearing the hold), then hit the manual generation endpoint with
forced regeneration: it re-queues the task without re-setting
`allocation_hold`. -/
theorem c7_counterexample :
    Reachable (generate_draft_endpoint
      (generate_ai_draft mockEnv 0
        (process_pdf_create_task DB.empty 1 sampleSchema) 1 false).1
      1 true).1 ∧
    queuedWithoutHold (generate_draft_endpoint
      (generate_ai_draft mockEnv 0
        (process_pdf_create_task DB.empty 1 sampleSchema) 1 false).1
      1 true).1 1 = true := by
  constructor
  · exact Reachable.generateEp _ 1 true
      (Reachable.worker _ mockEnv 0 1 false
        (Reachable.create DB.empty 1 sampleSchema Reachable.init rfl))
  · rfl

/-- Claim C8: recording a QA check against the latest human edit of a task
in QA_PENDING: a PASS verdict moves the task to the terminal QA_DONE, after
which neither a further edit nor a further QA check is accepted; a FAIL
verdict moves the task to REASSIGNED, retains the failing edit (and its
text), stores the reviewer comments, and records the previous
annotator. -/
theorem c8_qa_cycle (st : QAState) (reviewer : Nat) (comments : Option String)
    (e : HumanEditRec) (rest : List HumanEditRec)
    (hst : st.status = TaskStatus.qa_pending) (hed : st.edits = e :: rest) :
    (∃ stP, record_qa st reviewer QAResult.pass comments = Except.ok stP ∧
      stP.status = TaskStatus.qa_done ∧
      stP.edits = st.edits ∧
      (∀ u txt, record_human_edit stP u txt =
        Except.error "InvalidStateTransition") ∧
      (∀ rv res cm, record_qa stP rv res cm =
        Except.error "InvalidStateTransition")) ∧
    (∃ stF, record_qa st reviewer QAResult.fail comments = Except.ok stF ∧
      stF.status = TaskStatus.reassigned ∧
      stF.edits = st.edits ∧
      (stF.edits.head?.map HumanEditRec.edited_text) = some e.edited_text ∧
      stF.checks.head? = some { reviewer_id := reviewer
                                result := QAResult.fail
                                comments := comments } ∧
      stF.previous_annotator = some e.user_id) := by
  constructor
  · refine ⟨{ st with
        status := TaskStatus.qa_done
        checks := { reviewer_id := reviewer
                    result := QAResult.pass
                    comments := comments } :: st.checks }, ?_, rfl, rfl, ?_, ?_⟩
    · simp [record_qa, hst, hed]
    · intro u txt
      simp [record_human_edit]
    · intro rv res cm
      simp [record_qa]
  · refine ⟨{ st with
        status := TaskStatus.reassigned
        checks := { reviewer_id := reviewer
                    result := QAResult.fail
                    comments := comments } :: st.checks
        previous_annotator := some e.user_id }, ?_, rfl, rfl, ?_, rfl, rfl⟩
    · simp [record_qa, hst, hed]
    · rw [hed]; rfl

/-- Witness for C8 at a concrete review state: one pending edit by
annotator 42 reviewed by reviewer 9. -/
theorem c8_qa_cycle_witness :
    (∃ stP, record_qa ⟨TaskStatus.qa_pending, [⟨42, "edited text"⟩], [], none⟩
        9 QAResult.pass (some "ok") = Except.ok stP ∧
      stP.status = TaskStatus.qa_done ∧
      stP.edits = (⟨TaskStatus.qa_pending, [⟨42, "edited text"⟩], [],
        (none : Option Nat)⟩ : QAState).edits ∧
      (∀ u txt, record_human_edit stP u txt =
        Except.error "InvalidStateTransition") ∧
      (∀ rv res cm, record_qa stP rv res cm =
        Except.error "InvalidStateTransition")) ∧
    (∃ stF, record_qa ⟨TaskStatus.qa_pending, [⟨42, "edited text"⟩], [], none⟩
        9 QAResult.fail (some "ok") = Except.ok stF ∧
      stF.status = TaskStatus.reassigned ∧
      stF.edits = (⟨TaskStatus.qa_pending, [⟨42, "edited text"⟩], [],
        (none : Option Nat)⟩ : QAState).edits ∧
      (stF.edits.head?.map HumanEditRec.edited_text) = some "edited text" ∧
      stF.checks.head? = some { reviewer_id := 9
                                result := QAResult.fail
                                comments := some "ok" } ∧
      stF.previous_annotator = some 42) :=
  c8_qa_cycle ⟨TaskStatus.qa_pending, [⟨42, "edited text"⟩], [], none⟩
    9 (some "ok") ⟨42, "edited text"⟩ [] rfl rfl

end Backend
